import Mathlib

/-!
Shallow embedding of the task-list engine of the todo-app repository
(src/constants.py, src/models.py, src/taskmaster.py).

Timestamps (Python `datetime`) are modelled as integers (a total order is
all the code uses: comparison, `getD`-style defaulting, and equality).
Strings are Lean `String`s; Python `str.strip` / slicing / `lower` are
modelled character-wise below.  Fallible Python code (raising
`ValueError` / `KeyError`) is modelled with `Except`.
-/

namespace TodoApp

/-- TaskStatus enum of src/constants.py. -/
inductive TaskStatus
  | PENDING
  | DONE
deriving DecidableEq, Repr

/-- TaskFilter enum of src/constants.py. -/
inductive TaskFilter
  | ALL
  | PENDING
  | DONE
deriving DecidableEq, Repr

/-- Priority enum of src/constants.py (LOW=1, MEDIUM=2, HIGH=3). -/
inductive Priority
  | LOW
  | MEDIUM
  | HIGH
deriving DecidableEq, Repr

/-- Ordinal value of a priority, as in `Priority.value` in Python. -/
def Priority.value : Priority → Nat
  | .LOW => 1
  | .MEDIUM => 2
  | .HIGH => 3

/-- Enum member name, as produced by `.name` in Python serialization. -/
def TaskStatus.pyName : TaskStatus → String
  | .PENDING => "PENDING"
  | .DONE => "DONE"

/-- Enum lookup `TaskStatus[s]`; `none` models the `KeyError` on an
unrecognized name. -/
def TaskStatus.fromName (s : String) : Option TaskStatus :=
  if s = "PENDING" then some .PENDING
  else if s = "DONE" then some .DONE
  else none

/-- Enum member name of a priority. -/
def Priority.pyName : Priority → String
  | .LOW => "LOW"
  | .MEDIUM => "MEDIUM"
  | .HIGH => "HIGH"

/-- Enum lookup `Priority[s]`; `none` models the `KeyError` on an
unrecognized name. -/
def Priority.fromName (s : String) : Option Priority :=
  if s = "LOW" then some .LOW
  else if s = "MEDIUM" then some .MEDIUM
  else if s = "HIGH" then some .HIGH
  else none

/-- Python `str.strip()`: remove leading and trailing whitespace. -/
def pyStrip (s : String) : String :=
  String.mk (((s.data.dropWhile Char.isWhitespace).reverse.dropWhile
    Char.isWhitespace).reverse)

/-- Python slice `s[:200]` taken on the condition `len(s) > 200`, exactly as
written in `Task.__init__` (src/models.py lines 22-23). -/
def pyTruncate200 (s : String) : String :=
  if s.length > 200 then String.mk (s.data.take 200) else s

/-- Python `str.lower()` (modelled for the ASCII range, which is all the
claims exercise). -/
def pyLower (s : String) : String :=
  s.toLower

/-- Python substring test `needle in haystack`. -/
def pyIn (needle haystack : String) : Bool :=
  decide (needle.data <:+: haystack.data)

/-- Error taxonomy of the spec: `ValueError("Task description cannot be
empty")` is `InvalidDescription`; `KeyError` during `from_dict` is
`MalformedRecord`. -/
inductive TaskError
  | invalidDescription
  | malformedRecord
deriving DecidableEq, Repr

instance {ε α : Type} [DecidableEq ε] [DecidableEq α] :
    DecidableEq (Except ε α)
  | .error e1, .error e2 => decidable_of_iff (e1 = e2) (by simp)
  | .error _, .ok _ => isFalse (by simp)
  | .ok _, .error _ => isFalse (by simp)
  | .ok a1, .ok a2 => decidable_of_iff (a1 = a2) (by simp)

/-- Task entity (src/models.py).  `id` is the resolved identifier (the
`task_id or str(uuid4())` fallback only affects which opaque id a task
gets, never any field the claims mention). -/
structure Task where
  id : String
  description : String
  status : TaskStatus
  priority : Priority
  created_at : Int
  due_date : Option Int
  updated_at : Int
deriving DecidableEq, Repr

/-- Task.__init__ (src/models.py lines 11-31).  The emptiness guard is
checked on the raw input, truncation to 200 characters happens before the
final strip, and `updated_at` is initialized to `created_at`, exactly as in
the source. -/
def Task.construct (description : String) (status : TaskStatus)
    (priority : Priority) (task_id : String) (created_at : Int)
    (due_date : Option Int) : Except TaskError Task :=
  if description = "" ∨ pyStrip description = "" then
    .error .invalidDescription
  else
    .ok { id := task_id
          description := pyStrip (pyTruncate200 description)
          status := status
          priority := priority
          created_at := created_at
          due_date := due_date
          updated_at := created_at }

/-- Serialized record shape (src/taskmaster.py persistence / Task.to_dict).
`none` in a field models both a JSON `null` and an absent key, matching the
falsy checks `data.get(...)` in `from_dict`. -/
structure TaskRecord where
  id : Option String
  description : Option String
  status : Option String
  priority : Option String
  created_at : Option Int
  due_date : Option Int
  updated_at : Option Int
deriving DecidableEq, Repr

/-- Task.to_dict (src/models.py lines 33-42). -/
def Task.to_dict (t : Task) : TaskRecord :=
  { id := some t.id
    description := some t.description
    status := some t.status.pyName
    priority := some t.priority.pyName
    created_at := some t.created_at
    due_date := t.due_date
    updated_at := some t.updated_at }

/-- Task.from_dict (src/models.py lines 44-53).  `data["description"]`,
`TaskStatus[data["status"]]`, `Priority[data.get("priority", "MEDIUM")]` and
`data["id"]` raise `KeyError` when absent or unrecognized; `created_at` and
`due_date` go through falsy `data.get` checks, and an absent `created_at`
makes the constructor fall back to `datetime.now()`, passed here as `now`. -/
def Task.from_dict (data : TaskRecord) (now : Int) : Except TaskError Task :=
  match data.description, data.status, data.id with
  | some desc, some statusName, some taskId =>
    match TaskStatus.fromName statusName,
        Priority.fromName (data.priority.getD "MEDIUM") with
    | some status, some priority =>
      Task.construct desc status priority taskId
        (data.created_at.getD now) data.due_date
    | _, _ => .error .malformedRecord
  | _, _, _ => .error .malformedRecord

/-- Task.toggle_status (src/models.py lines 55-57). -/
def Task.toggle_status (t : Task) (now : Int) : Task :=
  { t with
    status := if t.status = TaskStatus.PENDING then TaskStatus.DONE
              else TaskStatus.PENDING
    updated_at := now }

/-- Task.update_description (src/models.py lines 59-63): guard on the raw
input, then strip and only afterwards truncate to 200 characters. -/
def Task.update_description (t : Task) (new_description : String)
    (now : Int) : Except TaskError Task :=
  if new_description = "" ∨ pyStrip new_description = "" then
    .error .invalidDescription
  else
    .ok { t with
          description := String.mk ((pyStrip new_description).data.take 200)
          updated_at := now }

/-- Task.is_overdue (src/models.py lines 73-76). -/
def Task.is_overdue (t : Task) (now : Int) : Bool :=
  match t.due_date with
  | none => false
  | some due => if t.status = TaskStatus.DONE then false else decide (now > due)

/-- Task.is_due_soon (src/models.py lines 78-81); `hours` is the window
parameter (default 24 in Python), converted to seconds. -/
def Task.is_due_soon (t : Task) (now : Int) (hours : Int) : Bool :=
  match t.due_date with
  | none => false
  | some due =>
    if t.status = TaskStatus.DONE then false
    else decide (now < due ∧ due ≤ now + hours * 3600)

/-- Lexicographic order on a pair, mirroring Python tuple comparison. -/
def lex2LE {β γ : Type} [LinearOrder β] [LinearOrder γ] (x y : β × γ) : Prop :=
  x.1 < y.1 ∨ (x.1 = y.1 ∧ x.2 ≤ y.2)

instance {β γ : Type} [LinearOrder β] [LinearOrder γ] (x y : β × γ) :
    Decidable (lex2LE x y) :=
  inferInstanceAs (Decidable (x.1 < y.1 ∨ (x.1 = y.1 ∧ x.2 ≤ y.2)))

/-- Lexicographic order on a triple, mirroring Python tuple comparison as
used by `list.sort(key=...)` on the 3-tuples of `_get_sort_key`. -/
def lex3LE {α β γ : Type} [LinearOrder α] [LinearOrder β] [LinearOrder γ]
    (x y : α × β × γ) : Prop :=
  x.1 < y.1 ∨ (x.1 = y.1 ∧ lex2LE x.2 y.2)

instance {α β γ : Type} [LinearOrder α] [LinearOrder β] [LinearOrder γ]
    (x y : α × β × γ) : Decidable (lex3LE x y) :=
  inferInstanceAs (Decidable (x.1 < y.1 ∨ (x.1 = y.1 ∧ lex2LE x.2 y.2)))

theorem lex2LE_total {β γ : Type} [LinearOrder β] [LinearOrder γ]
    (x y : β × γ) : lex2LE x y ∨ lex2LE y x := by
  rcases lt_trichotomy x.1 y.1 with h | h | h
  · exact Or.inl (Or.inl h)
  · rcases le_total x.2 y.2 with h2 | h2
    · exact Or.inl (Or.inr ⟨h, h2⟩)
    · exact Or.inr (Or.inr ⟨h.symm, h2⟩)
  · exact Or.inr (Or.inl h)

theorem lex2LE_trans {β γ : Type} [LinearOrder β] [LinearOrder γ]
    {x y z : β × γ} (hxy : lex2LE x y) (hyz : lex2LE y z) : lex2LE x z := by
  rcases hxy with h1 | ⟨h1, h1b⟩ <;> rcases hyz with h2 | ⟨h2, h2b⟩
  · exact Or.inl (lt_trans h1 h2)
  · exact Or.inl (h2 ▸ h1)
  · exact Or.inl (h1 ▸ h2)
  · exact Or.inr ⟨h1.trans h2, le_trans h1b h2b⟩

theorem lex3LE_total {α β γ : Type} [LinearOrder α] [LinearOrder β]
    [LinearOrder γ] (x y : α × β × γ) : lex3LE x y ∨ lex3LE y x := by
  rcases lt_trichotomy x.1 y.1 with h | h | h
  · exact Or.inl (Or.inl h)
  · rcases lex2LE_total x.2 y.2 with h2 | h2
    · exact Or.inl (Or.inr ⟨h, h2⟩)
    · exact Or.inr (Or.inr ⟨h.symm, h2⟩)
  · exact Or.inr (Or.inl h)

theorem lex3LE_trans {α β γ : Type} [LinearOrder α] [LinearOrder β]
    [LinearOrder γ] {x y z : α × β × γ} (hxy : lex3LE x y)
    (hyz : lex3LE y z) : lex3LE x z := by
  rcases hxy with h1 | ⟨h1, h1b⟩ <;> rcases hyz with h2 | ⟨h2, h2b⟩
  · exact Or.inl (lt_trans h1 h2)
  · exact Or.inl (h2 ▸ h1)
  · exact Or.inl (h1 ▸ h2)
  · exact Or.inr ⟨h1.trans h2, lex2LE_trans h1b h2b⟩

theorem lex3LE_fst {α β γ : Type} [LinearOrder α] [LinearOrder β]
    [LinearOrder γ] {x y : α × β × γ} (h : lex3LE x y) : x.1 ≤ y.1 := by
  rcases h with h | ⟨h, _⟩
  · exact le_of_lt h
  · exact le_of_eq h

/-- First component of every sort key: `1 if task.status == DONE else 0`
(src/taskmaster.py line 81). -/
def doneSort (t : Task) : Nat :=
  if t.status = TaskStatus.DONE then 1 else 0

/-- Sort key for `sort_by == "priority"` (src/taskmaster.py line 83). -/
def keyPriority (t : Task) : Nat × Nat × Int :=
  (doneSort t, t.priority.value, t.created_at)

/-- Sort key for `sort_by == "alpha"` (src/taskmaster.py line 85). -/
def keyAlpha (t : Task) : Nat × String × Int :=
  (doneSort t, pyLower t.description, t.created_at)

/-- Sort key for the default `"created"` branch (src/taskmaster.py
line 87). -/
def keyCreated (t : Task) : Nat × Int × Nat :=
  (doneSort t, t.created_at, 0)

/-- Python `list.sort(key=key, reverse=rev)`: a stable sort by the key,
with `reverse=True` reversing the key comparison while still keeping equal
keys in their original relative order.  Insertion sort with a non-strict
relation has exactly this stable behavior. -/
def pySortByKey {β γ : Type} [LinearOrder β] [LinearOrder γ]
    (key : Task → Nat × β × γ) (rev : Bool) (l : List Task) : List Task :=
  letI : DecidableRel (fun a b : Task => lex3LE (key a) (key b)) :=
    fun a b => inferInstanceAs (Decidable (lex3LE (key a) (key b)))
  letI : DecidableRel (fun a b : Task => lex3LE (key b) (key a)) :=
    fun a b => inferInstanceAs (Decidable (lex3LE (key b) (key a)))
  if rev then List.insertionSort (fun a b => lex3LE (key b) (key a)) l
  else List.insertionSort (fun a b => lex3LE (key a) (key b)) l

/-- TaskMaster._get_sort_key dispatch combined with the `filtered.sort`
call (src/taskmaster.py lines 76, 79-88): `if/elif/else` on the
`sort_by` string. -/
def sortTasks (sort_by : String) (rev : Bool) (l : List Task) : List Task :=
  if sort_by = "priority" then pySortByKey keyPriority rev l
  else if sort_by = "alpha" then pySortByKey keyAlpha rev l
  else pySortByKey keyCreated rev l

/-- SORT_OPTIONS of src/constants.py. -/
def SORT_OPTIONS : List String := ["created", "priority", "alpha"]

/-- TaskMaster state (src/taskmaster.py __init__, lines 34-45), restricted
to the engine fields; the curses handle, data-file path and transient
message are UI/persistence collaborators outside the engine. -/
structure TaskMaster where
  tasks : List Task
  selected_index : Nat
  filter : TaskFilter
  sort_by : String
  sort_reverse : Bool
  search_query : String
  search_active : Bool
deriving DecidableEq, Repr

/-- Status-filter step of get_filtered_tasks (src/taskmaster.py
lines 67-70). -/
def filterStep (f : TaskFilter) (l : List Task) : List Task :=
  if f = TaskFilter.PENDING then
    l.filter (fun t => decide (t.status = TaskStatus.PENDING))
  else if f = TaskFilter.DONE then
    l.filter (fun t => decide (t.status = TaskStatus.DONE))
  else l

/-- Search step of get_filtered_tasks (src/taskmaster.py lines 72-74):
skipped for a falsy (empty) query, otherwise a case-insensitive substring
match on the description. -/
def searchStep (query : String) (l : List Task) : List Task :=
  if query = "" then l
  else l.filter (fun t => pyIn (pyLower query) (pyLower t.description))

/-- TaskMaster.get_filtered_tasks (src/taskmaster.py lines 64-77).
`filtered = self.tasks` aliases the store's own list, and both status
branches and the search branch rebind `filtered` to a fresh list; the
in-place `filtered.sort(...)` therefore writes the sorted order back into
`self.tasks` exactly when neither rebinding happened, i.e. when the filter
is ALL and the search query is empty.  The returned pair is (returned
list, state after the call). -/
def TaskMaster.get_filtered_tasks (s : TaskMaster) : List Task × TaskMaster :=
  let filtered := filterStep s.filter s.tasks
  let filtered := searchStep s.search_query filtered
  let result := sortTasks s.sort_by s.sort_reverse filtered
  (result,
    if s.filter ≠ TaskFilter.PENDING ∧ s.filter ≠ TaskFilter.DONE ∧
        s.search_query = "" then
      { s with tasks := result }
    else s)

/-- TaskMaster.archive_done_tasks (src/taskmaster.py lines 158-168),
returning the new state and the reported count of archived tasks (0 in the
"No done tasks to archive" branch). -/
def TaskMaster.archive_done_tasks (s : TaskMaster) : TaskMaster × Nat :=
  let done_tasks := s.tasks.filter (fun t => decide (t.status = TaskStatus.DONE))
  if done_tasks.isEmpty then (s, 0)
  else
    ({ s with
       tasks := s.tasks.filter (fun t => decide (t.status = TaskStatus.PENDING))
       selected_index := 0 },
     done_tasks.length)

/-- TaskMaster.cycle_filter (src/taskmaster.py lines 207-213). -/
def TaskMaster.cycle_filter (s : TaskMaster) : TaskMaster :=
  let filters := [TaskFilter.ALL, TaskFilter.PENDING, TaskFilter.DONE]
  let current_index := filters.indexOf s.filter
  { s with
    filter := filters.getD ((current_index + 1) % filters.length) TaskFilter.ALL
    selected_index := 0 }

/-- TaskMaster.cycle_sort (src/taskmaster.py lines 215-218); note the
source does not touch `selected_index` here. -/
def TaskMaster.cycle_sort (s : TaskMaster) : TaskMaster :=
  let current_idx := SORT_OPTIONS.indexOf s.sort_by
  { s with
    sort_by := SORT_OPTIONS.getD ((current_idx + 1) % SORT_OPTIONS.length)
      "created" }

/-- TaskMaster.toggle_sort_order (src/taskmaster.py lines 220-223); the
source does not touch `selected_index` here either. -/
def TaskMaster.toggle_sort_order (s : TaskMaster) : TaskMaster :=
  { s with sort_reverse := !s.sort_reverse }

/-- TaskMaster.set_search (src/taskmaster.py lines 225-229). -/
def TaskMaster.set_search (s : TaskMaster) : TaskMaster :=
  { s with search_active := true, search_query := "", selected_index := 0 }

/-- TaskMaster.clear_search (src/taskmaster.py lines 231-235). -/
def TaskMaster.clear_search (s : TaskMaster) : TaskMaster :=
  { s with search_query := "", search_active := false, selected_index := 0 }

/-! Concrete inputs used by the per-claim counterexamples and witnesses. -/

/-- Concrete DONE task (older), for the query-mutation evidence. -/
def c1_taskDone : Task :=
  { id := "t1", description := "write report", status := .DONE,
    priority := .MEDIUM, created_at := 0, due_date := none, updated_at := 0 }

/-- Concrete PENDING task (newer), for the query-mutation evidence. -/
def c1_taskPend : Task :=
  { id := "t2", description := "buy milk", status := .PENDING,
    priority := .MEDIUM, created_at := 1, due_date := none, updated_at := 1 }

/-- Store whose task list is not already in sorted order, with filter ALL
and no search query (the aliasing path of get_filtered_tasks). -/
def c1_state : TaskMaster :=
  { tasks := [c1_taskDone, c1_taskPend], selected_index := 0,
    filter := .ALL, sort_by := "created", sort_reverse := false,
    search_query := "", search_active := false }

/-- Length-201 input whose first character is a space: after the
constructor's truncate-then-strip the stored text has only 199
characters. -/
def c2_input_construct : String := String.mk (' ' :: List.replicate 200 'a')

/-- Length-251 input that is one letter followed by 250 spaces: the update
path strips first, storing a single character. -/
def c2_input_update : String := String.mk ('b' :: List.replicate 250 ' ')

/-- Existing task used to exercise update_description. -/
def c2_task : Task :=
  { id := "c2", description := "original", status := .PENDING,
    priority := .MEDIUM, created_at := 0, due_date := none, updated_at := 0 }

/-- Input of 250 letters, whose trimmed form has 250 ≥ 200 characters. -/
def c2_wit_input : String := String.mk (List.replicate 250 'a')

/-- DONE task that alphabetically precedes the pending one. -/
def c3_taskDone : Task :=
  { id := "d", description := "alpha done", status := .DONE,
    priority := .HIGH, created_at := 0, due_date := none, updated_at := 0 }

/-- PENDING task that alphabetically follows the done one. -/
def c3_taskPend : Task :=
  { id := "p", description := "beta pending", status := .PENDING,
    priority := .LOW, created_at := 5, due_date := none, updated_at := 5 }

/-- Store sorted alphabetically, not reversed, where without the
status bucket the DONE task would come first. -/
def c3_state : TaskMaster :=
  { tasks := [c3_taskDone, c3_taskPend], selected_index := 0,
    filter := .ALL, sort_by := "alpha", sort_reverse := false,
    search_query := "", search_active := false }

/-- Record with id, description and status present but created_at
absent. -/
def c4_record_no_created : TaskRecord :=
  { id := some "x", description := some "t", status := some "PENDING",
    priority := none, created_at := none, due_date := none,
    updated_at := none }

/-- The task the loader actually produces from `c4_record_no_created` at
load time 5. -/
def c4_parsed : Task :=
  { id := "x", description := "t", status := .PENDING,
    priority := .MEDIUM, created_at := 5, due_date := none, updated_at := 5 }

/-- Record with the description field absent. -/
def c4_record_no_desc : TaskRecord :=
  { id := some "i", description := none, status := some "PENDING",
    priority := none, created_at := some 0, due_date := none,
    updated_at := none }

/-- Store whose cursor sits at index 3 before any view-control call. -/
def c5_state : TaskMaster :=
  { tasks := [], selected_index := 3, filter := .ALL,
    sort_by := "created", sort_reverse := false, search_query := "",
    search_active := false }

/-- DONE task with a due date in the past. -/
def c6_task : Task :=
  { id := "c6", description := "late but done", status := .DONE,
    priority := .MEDIUM, created_at := 0, due_date := some (-5),
    updated_at := 0 }

/-- Task used to exercise the failing edit path. -/
def c7_task : Task :=
  { id := "c7", description := "keep me", status := .PENDING,
    priority := .HIGH, created_at := 2, due_date := some 9, updated_at := 2 }

/-- Well-formed task (trimmed, non-empty, within the cap) for the
serialization round trip. -/
def c8_task : Task :=
  { id := "c8", description := "buy milk", status := .DONE,
    priority := .HIGH, created_at := 2, due_date := some 7, updated_at := 9 }

/-- Length-302 update input with 300 interior spaces: stripping removes
nothing, and truncation then keeps a letter followed by 199 spaces. -/
def c8_bad_input : String :=
  String.mk ('a' :: (List.replicate 300 ' ' ++ ['b']))

/-- The task the update path actually stores for `c8_bad_input`: its
description ends in 199 spaces, so it is not strip-invariant. -/
def c8_reachable : Task :=
  { id := "c8", description := String.mk ('a' :: List.replicate 199 ' '),
    status := .DONE, priority := .HIGH, created_at := 2, due_date := some 7,
    updated_at := 1 }

/-- What deserializing the serialization of `c8_reachable` yields: the
constructor re-strips, collapsing the description to a single letter. -/
def c8_restripped : Task :=
  { id := "c8", description := "a", status := .DONE, priority := .HIGH,
    created_at := 2, due_date := some 7, updated_at := 2 }

/-- Length-201 construction input of 200 spaces and a letter: it passes
the emptiness guard, is truncated to 200 spaces, and strips to "". -/
def c8_ws_input : String := String.mk (List.replicate 200 ' ' ++ ['x'])

/-- The task the constructor actually stores for `c8_ws_input`: its
description is empty, so serializing it produces a record that fails to
load. -/
def c8_empty_desc_task : Task :=
  { id := "e", description := "", status := .PENDING, priority := .MEDIUM,
    created_at := 0, due_date := none, updated_at := 0 }

/-- Helper: enum round trip for status names. -/
theorem statusFromName_roundtrip (st : TaskStatus) :
    TaskStatus.fromName st.pyName = some st := by
  cases st <;> rfl

/-- Helper: enum round trip for priority names. -/
theorem priorityFromName_roundtrip (p : Priority) :
    Priority.fromName p.pyName = some p := by
  cases p <;> rfl

/-- C5, counterexample: with the cursor at 3, cycling the sort key or
toggling the sort direction leaves it at 3, so neither operation resets the
view cursor to 0 as the claim states. -/
theorem c5_counterexample :
    (c5_state.cycle_sort).selected_index = 3
  ∧ (c5_state.toggle_sort_order).selected_index = 3
  ∧ ¬ ((c5_state.cycle_sort).selected_index = 0)
  ∧ ¬ ((c5_state.toggle_sort_order).selected_index = 0) := by
  refine ⟨rfl, rfl, ?_, ?_⟩ <;> decide

/-- C5, amended: cycle_filter, set_search and clear_search reset the view
cursor to 0 for every prior store state, while cycle_sort and
toggle_sort_order leave the cursor unchanged. -/
theorem c5_amended (s : TaskMaster) :
    (s.cycle_filter).selected_index = 0
  ∧ (s.set_search).selected_index = 0
  ∧ (s.clear_search).selected_index = 0
  ∧ (s.cycle_sort).selected_index = s.selected_index
  ∧ (s.toggle_sort_order).selected_index = s.selected_index :=
  ⟨rfl, rfl, rfl, rfl, rfl⟩

/-- C6: a DONE task is never overdue and never due-soon, for every due
date (present or not), every current time and every window. -/
theorem c6_done_never_overdue (t : Task) (now hours : Int)
    (h : t.status = TaskStatus.DONE) :
    t.is_overdue now = false ∧ t.is_due_soon now hours = false := by
  unfold Task.is_overdue Task.is_due_soon
  cases t.due_date <;> simp [h]

/-- Witness for C6 at a DONE task whose due date lies in the past. -/
theorem c6_done_never_overdue_witness :
    c6_task.status = TaskStatus.DONE
  ∧ (c6_task.is_overdue 100 = false ∧ c6_task.is_due_soon 100 24 = false) :=
  ⟨rfl, c6_done_never_overdue c6_task 100 24 rfl⟩

/-- C7: constructing with an empty or whitespace-only description, or
updating a task's description to one, fails with InvalidDescription; the
update returns no task at all, so every field of the task is left
unchanged (the source mutates fields only after this guard passes). -/
theorem c7_empty_rejection (s : String) (t : Task) (st : TaskStatus)
    (p : Priority) (tid : String) (ca : Int) (dd : Option Int) (now : Int)
    (h : pyStrip s = "") :
    Task.construct s st p tid ca dd = Except.error TaskError.invalidDescription
  ∧ Task.update_description t s now =
      Except.error TaskError.invalidDescription := by
  refine ⟨?_, ?_⟩
  · unfold Task.construct; rw [if_pos (Or.inr h)]
  · unfold Task.update_description; rw [if_pos (Or.inr h)]

/-- Witness for C7 at the whitespace-only input. -/
theorem c7_empty_rejection_witness :
    pyStrip "   " = ""
  ∧ (Task.construct "   " TaskStatus.PENDING Priority.MEDIUM "w" 0 none =
        Except.error TaskError.invalidDescription
      ∧ Task.update_description c7_task "   " 3 =
          Except.error TaskError.invalidDescription) :=
  ⟨by decide,
   c7_empty_rejection "   " c7_task TaskStatus.PENDING Priority.MEDIUM
     "w" 0 none 3 (by decide)⟩

/-- C9: archive_done_tasks reports exactly the number of DONE tasks and
keeps exactly the PENDING ones in order; calling it again immediately
reports 0 and leaves the sequence unchanged. -/
theorem c9_archive_idempotent (s : TaskMaster) :
    (s.archive_done_tasks).2 =
      (s.tasks.filter (fun t => decide (t.status = TaskStatus.DONE))).length
  ∧ (s.archive_done_tasks).1.tasks =
      s.tasks.filter (fun t => decide (t.status = TaskStatus.PENDING))
  ∧ ((s.archive_done_tasks).1.archive_done_tasks).2 = 0
  ∧ ((s.archive_done_tasks).1.archive_done_tasks).1.tasks =
      (s.archive_done_tasks).1.tasks := by
  have hpend : ∀ t : Task, ¬ t.status = TaskStatus.DONE →
      t.status = TaskStatus.PENDING := by
    intro t h; cases ht : t.status
    · rfl
    · exact absurd ht h
  have hnil : ∀ l : List Task,
      (l.filter (fun t => decide (t.status = TaskStatus.PENDING))).filter
        (fun t => decide (t.status = TaskStatus.DONE)) = [] := by
    intro l
    rw [List.filter_eq_nil_iff]
    intro t ht
    have := (List.mem_filter.1 ht).2
    simp only [decide_eq_true_eq] at this ⊢
    rw [this]; intro hcon; cases hcon
  unfold TaskMaster.archive_done_tasks
  by_cases hd :
      (s.tasks.filter (fun t => decide (t.status = TaskStatus.DONE))).isEmpty
  · have hdnil : s.tasks.filter (fun t => decide (t.status = TaskStatus.DONE)) = [] :=
      List.isEmpty_iff.1 hd
    have hself : s.tasks.filter (fun t => decide (t.status = TaskStatus.PENDING)) =
        s.tasks := by
      rw [List.filter_eq_self]
      intro t ht
      have := List.filter_eq_nil_iff.1 hdnil t ht
      simp only [decide_eq_true_eq] at this ⊢
      exact hpend t this
    simp [hd, hdnil, hself]
  · rw [if_neg hd]
    refine ⟨rfl, rfl, ?_, ?_⟩ <;>
      simp [hnil s.tasks]

/-- C10: toggle_status changes only the status and updated_at fields,
flips PENDING and DONE, and applying it twice restores the original
status. -/
theorem c10_toggle_involution (t : Task) (n1 n2 : Int) :
    ((t.toggle_status n1).id = t.id
      ∧ (t.toggle_status n1).description = t.description
      ∧ (t.toggle_status n1).priority = t.priority
      ∧ (t.toggle_status n1).created_at = t.created_at
      ∧ (t.toggle_status n1).due_date = t.due_date)
  ∧ (t.toggle_status n1).updated_at = n1
  ∧ (t.toggle_status n1).status =
      (if t.status = TaskStatus.PENDING then TaskStatus.DONE
       else TaskStatus.PENDING)
  ∧ ((t.toggle_status n1).toggle_status n2).status = t.status := by
  refine ⟨⟨rfl, rfl, rfl, rfl, rfl⟩, rfl, rfl, ?_⟩
  cases h : t.status <;> simp [Task.toggle_status, h]

/-- C1, code-bug evidence: with filter ALL and an empty search query,
`filtered = self.tasks` aliases the store's list and the in-place
`filtered.sort(...)` reorders `self.tasks` itself — here from
[done, pending] to [pending, done] — so the query pipeline mutates the
store's task sequence, contradicting the documented pure/no-mutation
contract. -/
theorem c1_query_mutates_store :
    (c1_state.get_filtered_tasks).2.tasks = [c1_taskPend, c1_taskDone]
  ∧ c1_state.tasks = [c1_taskDone, c1_taskPend]
  ∧ (c1_state.get_filtered_tasks).2.tasks ≠ c1_state.tasks := by
  refine ⟨by decide, rfl, by decide⟩

set_option maxRecDepth 20000 in
/-- C2, counterexample: the constructor truncates to 200 characters and
only then strips, so the length-201 input beginning with a space is stored
with 199 characters, not 200; and on the update path the length-251 input
"b" followed by spaces strips down to a single character.  Both refute
"stored description of exactly length 200". -/
theorem c2_counterexample :
    c2_input_construct.length = 201
  ∧ (Task.construct c2_input_construct TaskStatus.PENDING Priority.MEDIUM
      "cid" 0 none).map (fun t => t.description.length) = Except.ok 199
  ∧ c2_input_update.length = 251
  ∧ (Task.update_description c2_task c2_input_update 0).map
      (fun t => t.description.length) = Except.ok 1 := by
  refine ⟨by decide, by decide, by decide, by decide⟩

/-- C2, amended: for any non-whitespace-only input, construction stores
the strip of the first 200 characters of the raw input, while the update
path stores the first 200 characters of the stripped input; whenever the
trimmed input has at least 200 characters, the update path therefore
stores exactly 200 characters. -/
theorem c2_truncation_amended (s : String) (t : Task) (st : TaskStatus)
    (p : Priority) (tid : String) (ca : Int) (dd : Option Int) (now : Int)
    (h : pyStrip s ≠ "") :
    Task.construct s st p tid ca dd =
      Except.ok { id := tid, description := pyStrip (pyTruncate200 s),
                  status := st, priority := p, created_at := ca,
                  due_date := dd, updated_at := ca }
  ∧ Task.update_description t s now =
      Except.ok { t with
                  description := String.mk ((pyStrip s).data.take 200),
                  updated_at := now }
  ∧ (200 ≤ (pyStrip s).length →
      (Task.update_description t s now).map (fun u => u.description.length) =
        Except.ok 200) := by
  have hs : ¬ (s = "" ∨ pyStrip s = "") := by
    rintro (rfl | h2)
    · exact h (by decide)
    · exact h h2
  refine ⟨?_, ?_, ?_⟩
  · unfold Task.construct; rw [if_neg hs]
  · unfold Task.update_description; rw [if_neg hs]
  · intro hlen
    unfold Task.update_description
    rw [if_neg hs]
    show Except.ok ((pyStrip s).data.take 200).length = Except.ok 200
    have : ((pyStrip s).data.take 200).length = 200 := by
      rw [List.length_take]
      exact Nat.min_eq_left hlen
    rw [this]

set_option maxRecDepth 20000 in
/-- Witness for the amended C2 at a 250-letter input. -/
theorem c2_truncation_amended_witness :
    pyStrip c2_wit_input ≠ ""
  ∧ 200 ≤ (pyStrip c2_wit_input).length
  ∧ (Task.update_description c2_task c2_wit_input 7).map
      (fun u => u.description.length) = Except.ok 200 :=
  ⟨by decide, by decide,
   (c2_truncation_amended c2_wit_input c2_task TaskStatus.PENDING
     Priority.MEDIUM "x" 0 none 7 (by decide)).2.2 (by decide)⟩

/-- C4, counterexample: a record with id, description and status present
but created_at absent deserializes successfully (created_at falls back to
the load-time clock), instead of failing with MalformedRecord as the claim
states. -/
theorem c4_counterexample :
    c4_record_no_created.created_at = none
  ∧ Task.from_dict c4_record_no_created 5 = Except.ok c4_parsed :=
  ⟨rfl, by decide⟩

/-- C4, amended: deserialization fails with MalformedRecord when id,
description or status is absent; a missing priority defaults to MEDIUM, a
missing or null due_date is tolerated, and a missing created_at is also
tolerated, defaulting to the load-time clock. -/
theorem c4_required_fields_amended (r : TaskRecord) (now : Int) :
    ((r.description = none ∨ r.status = none ∨ r.id = none) →
      Task.from_dict r now = Except.error TaskError.malformedRecord)
  ∧ (∀ t, Task.from_dict r now = Except.ok t → r.priority = none →
      t.priority = Priority.MEDIUM)
  ∧ (∀ t, Task.from_dict r now = Except.ok t → r.created_at = none →
      t.created_at = now) := by
  obtain ⟨rid, rdesc, rst, rpr, rca, rdd, rua⟩ := r
  refine ⟨?_, ?_, ?_⟩
  · intro h
    cases rdesc <;> cases rst <;> cases rid <;>
      first
      | rfl
      | simp at h
  · intro t hok hpr
    subst hpr
    cases rdesc with
    | none => exact absurd hok (by simp [Task.from_dict])
    | some d =>
      cases rst with
      | none => exact absurd hok (by simp [Task.from_dict])
      | some stName =>
        cases rid with
        | none => exact absurd hok (by simp [Task.from_dict])
        | some tid =>
          unfold Task.from_dict at hok
          simp only [Option.getD_none] at hok
          split at hok
          · rename_i status priority heq1 heq2
            have hmed : Priority.fromName "MEDIUM" = some Priority.MEDIUM := rfl
            rw [hmed] at heq2
            have hp : Priority.MEDIUM = priority := Option.some_inj.1 heq2
            unfold Task.construct at hok
            split at hok
            · exact absurd hok (by simp)
            · injection hok with h
              rw [← h, ← hp]
          · exact absurd hok (by simp)
  · intro t hok hca
    subst hca
    cases rdesc with
    | none => exact absurd hok (by simp [Task.from_dict])
    | some d =>
      cases rst with
      | none => exact absurd hok (by simp [Task.from_dict])
      | some stName =>
        cases rid with
        | none => exact absurd hok (by simp [Task.from_dict])
        | some tid =>
          unfold Task.from_dict at hok
          simp only [Option.getD_none] at hok
          split at hok
          · unfold Task.construct at hok
            split at hok
            · exact absurd hok (by simp)
            · injection hok with h
              rw [← h]
          · exact absurd hok (by simp)

/-- Witness for the amended C4: a record missing its description is
rejected, and the successfully parsed record with priority absent comes
back with priority MEDIUM. -/
theorem c4_required_fields_amended_witness :
    Task.from_dict c4_record_no_desc 0 = Except.error TaskError.malformedRecord
  ∧ c4_parsed.priority = Priority.MEDIUM :=
  ⟨(c4_required_fields_amended c4_record_no_desc 0).1 (Or.inl rfl),
   (c4_required_fields_amended c4_record_no_created 5).2.1 c4_parsed
     (by decide) rfl⟩

set_option maxRecDepth 20000 in
/-- C8, counterexample: the round trip fails on tasks the code itself
builds.  The update path stores a letter followed by 199 spaces for
`c8_bad_input` (strip-then-truncate leaves trailing whitespace), and
deserializing its serialization re-strips the description down to "a";
the construction path stores an empty description for `c8_ws_input`
(truncate-then-strip), and deserializing its serialization fails
outright.  Both refute the universally quantified exact-reproduction
claim. -/
theorem c8_counterexample :
    Task.update_description c8_task c8_bad_input 1 = Except.ok c8_reachable
  ∧ Task.from_dict (Task.to_dict c8_reachable) 2 = Except.ok c8_restripped
  ∧ c8_restripped.description ≠ c8_reachable.description
  ∧ Task.construct c8_ws_input TaskStatus.PENDING Priority.MEDIUM "e" 0 none =
      Except.ok c8_empty_desc_task
  ∧ Task.from_dict (Task.to_dict c8_empty_desc_task) 0 =
      Except.error TaskError.invalidDescription := by
  refine ⟨by decide, by decide, by decide, by decide, by decide⟩

/-- C8, amended: deserializing the serialization of a task whose stored
description is non-empty, strip-invariant and within the 200-character
cap succeeds and reproduces its description, status, priority and due
date exactly; tasks outside those conditions are reachable only through
the truncation edge cases exhibited in the counterexample, where the
round trip re-strips the description or fails to load. -/
theorem c8_roundtrip (t : Task) (now : Int)
    (h1 : t.description ≠ "") (h2 : pyStrip t.description = t.description)
    (h3 : t.description.length ≤ 200) :
    ∃ u, Task.from_dict (Task.to_dict t) now = Except.ok u
      ∧ u.description = t.description ∧ u.status = t.status
      ∧ u.priority = t.priority ∧ u.due_date = t.due_date := by
  have hguard : ¬ (t.description = "" ∨ pyStrip t.description = "") := by
    rintro (hc | hc)
    · exact h1 hc
    · rw [h2] at hc; exact h1 hc
  have htr : pyTruncate200 t.description = t.description := by
    unfold pyTruncate200
    rw [if_neg (by omega)]
  refine ⟨{ id := t.id, description := t.description, status := t.status,
            priority := t.priority, created_at := t.created_at,
            due_date := t.due_date, updated_at := t.created_at },
          ?_, rfl, rfl, rfl, rfl⟩
  unfold Task.to_dict Task.from_dict
  simp only [statusFromName_roundtrip, priorityFromName_roundtrip,
    Option.getD_some]
  unfold Task.construct
  rw [if_neg hguard, htr, h2]

/-- Witness for C8 at a concrete DONE, HIGH-priority task with a due
date. -/
theorem c8_roundtrip_witness :
    (c8_task.description ≠ ""
      ∧ pyStrip c8_task.description = c8_task.description
      ∧ c8_task.description.length ≤ 200)
  ∧ (∃ u, Task.from_dict (Task.to_dict c8_task) 3 = Except.ok u
      ∧ u.description = c8_task.description ∧ u.status = c8_task.status
      ∧ u.priority = c8_task.priority ∧ u.due_date = c8_task.due_date) :=
  ⟨⟨by decide, by decide, by decide⟩,
   c8_roundtrip c8_task 3 (by decide) (by decide) (by decide)⟩

/-- Helper: the ascending branch of the Python sort is pairwise ordered by
the key comparison. -/
theorem pySortByKey_sorted_asc {β γ : Type} [LinearOrder β] [LinearOrder γ]
    (key : Task → Nat × β × γ) (l : List Task) :
    List.Pairwise (fun a b => lex3LE (key a) (key b))
      (pySortByKey key false l) := by
  letI : DecidableRel (fun a b : Task => lex3LE (key a) (key b)) :=
    fun a b => inferInstanceAs (Decidable (lex3LE (key a) (key b)))
  haveI : IsTotal Task (fun a b => lex3LE (key a) (key b)) :=
    ⟨fun a b => lex3LE_total (key a) (key b)⟩
  haveI : IsTrans Task (fun a b => lex3LE (key a) (key b)) :=
    ⟨fun _ _ _ hab hbc => lex3LE_trans hab hbc⟩
  exact List.sorted_insertionSort (fun a b => lex3LE (key a) (key b)) l

/-- Helper: the reversed branch of the Python sort is pairwise ordered by
the flipped key comparison. -/
theorem pySortByKey_sorted_desc {β γ : Type} [LinearOrder β] [LinearOrder γ]
    (key : Task → Nat × β × γ) (l : List Task) :
    List.Pairwise (fun a b => lex3LE (key b) (key a))
      (pySortByKey key true l) := by
  letI : DecidableRel (fun a b : Task => lex3LE (key b) (key a)) :=
    fun a b => inferInstanceAs (Decidable (lex3LE (key b) (key a)))
  haveI : IsTotal Task (fun a b => lex3LE (key b) (key a)) :=
    ⟨fun a b => lex3LE_total (key b) (key a)⟩
  haveI : IsTrans Task (fun a b => lex3LE (key b) (key a)) :=
    ⟨fun _ _ _ hab hbc => lex3LE_trans hbc hab⟩
  exact List.sorted_insertionSort (fun a b => lex3LE (key b) (key a)) l

/-- Helper: in a sorted output for a key whose first component is the
done/pending bucket, a DONE element never precedes a PENDING one (and
symmetrically under reversal). -/
theorem pySortByKey_bucket {β γ : Type} [LinearOrder β] [LinearOrder γ]
    (key : Task → Nat × β × γ) (hk : ∀ t, (key t).1 = doneSort t)
    (rev : Bool) (l : List Task) (i j : Nat) (ti tj : Task) (hij : i < j)
    (hi : (pySortByKey key rev l)[i]? = some ti)
    (hj : (pySortByKey key rev l)[j]? = some tj) :
    (rev = false →
      ¬ (ti.status = TaskStatus.DONE ∧ tj.status = TaskStatus.PENDING))
  ∧ (rev = true →
      ¬ (ti.status = TaskStatus.PENDING ∧ tj.status = TaskStatus.DONE)) := by
  constructor
  · rintro rfl ⟨hdi, hdj⟩
    have hp := pySortByKey_sorted_asc key l
    obtain ⟨hti, hgi⟩ := List.getElem?_eq_some.1 hi
    obtain ⟨htj, hgj⟩ := List.getElem?_eq_some.1 hj
    have hrel := List.pairwise_iff_getElem.1 hp i j hti htj hij
    rw [hgi, hgj] at hrel
    have hfst := lex3LE_fst hrel
    rw [hk, hk] at hfst
    simp [doneSort, hdi, hdj] at hfst
  · rintro rfl ⟨hdi, hdj⟩
    have hp := pySortByKey_sorted_desc key l
    obtain ⟨hti, hgi⟩ := List.getElem?_eq_some.1 hi
    obtain ⟨htj, hgj⟩ := List.getElem?_eq_some.1 hj
    have hrel := List.pairwise_iff_getElem.1 hp i j hti htj hij
    rw [hgi, hgj] at hrel
    have hfst := lex3LE_fst hrel
    rw [hk, hk] at hfst
    simp [doneSort, hdi, hdj] at hfst

/-- Helper: the bucketing property for the full sort dispatch, whatever
the sort field string is. -/
theorem sortTasks_bucket (sb : String) (rev : Bool) (l : List Task)
    (i j : Nat) (ti tj : Task) (hij : i < j)
    (hi : (sortTasks sb rev l)[i]? = some ti)
    (hj : (sortTasks sb rev l)[j]? = some tj) :
    (rev = false →
      ¬ (ti.status = TaskStatus.DONE ∧ tj.status = TaskStatus.PENDING))
  ∧ (rev = true →
      ¬ (ti.status = TaskStatus.PENDING ∧ tj.status = TaskStatus.DONE)) := by
  unfold sortTasks at hi hj
  by_cases h1 : sb = "priority"
  · rw [if_pos h1] at hi hj
    exact pySortByKey_bucket keyPriority (fun t => rfl) rev l i j ti tj hij hi hj
  · rw [if_neg h1] at hi hj
    by_cases h2 : sb = "alpha"
    · rw [if_pos h2] at hi hj
      exact pySortByKey_bucket keyAlpha (fun t => rfl) rev l i j ti tj hij hi hj
    · rw [if_neg h2] at hi hj
      exact pySortByKey_bucket keyCreated (fun t => rfl) rev l i j ti tj hij hi hj

/-- C3: in every view produced by get_filtered_tasks with the reverse flag
off, no DONE task appears before a PENDING task (every PENDING task comes
first), for every store state and every sort field; with the reverse flag
on, the whole composite order flips, so no PENDING task appears before a
DONE task. -/
theorem c3_sort_bucketing (s : TaskMaster) (i j : Nat) (ti tj : Task)
    (hij : i < j)
    (hi : (s.get_filtered_tasks).1[i]? = some ti)
    (hj : (s.get_filtered_tasks).1[j]? = some tj) :
    (s.sort_reverse = false →
      ¬ (ti.status = TaskStatus.DONE ∧ tj.status = TaskStatus.PENDING))
  ∧ (s.sort_reverse = true →
      ¬ (ti.status = TaskStatus.PENDING ∧ tj.status = TaskStatus.DONE)) := by
  have hview : (s.get_filtered_tasks).1 =
      sortTasks s.sort_by s.sort_reverse
        (searchStep s.search_query (filterStep s.filter s.tasks)) := rfl
  rw [hview] at hi hj
  exact sortTasks_bucket s.sort_by s.sort_reverse _ i j ti tj hij hi hj

/-- Witness for C3 at a non-reversed alphabetical view where the DONE task
would come first by description alone. -/
theorem c3_sort_bucketing_witness :
    (0 : Nat) < 1
  ∧ (c3_state.get_filtered_tasks).1[0]? = some c3_taskPend
  ∧ (c3_state.get_filtered_tasks).1[1]? = some c3_taskDone
  ∧ ((c3_state.sort_reverse = false →
      ¬ (c3_taskPend.status = TaskStatus.DONE
          ∧ c3_taskDone.status = TaskStatus.PENDING))
    ∧ (c3_state.sort_reverse = true →
      ¬ (c3_taskPend.status = TaskStatus.PENDING
          ∧ c3_taskDone.status = TaskStatus.DONE))) :=
  ⟨by decide, by decide, by decide,
   c3_sort_bucketing c3_state 0 1 c3_taskPend c3_taskDone (by decide)
     (by decide) (by decide)⟩

end TodoApp
